import Mathlib

/-!
Shallow embedding of the LC-3 virtual machine in src/virtualMachine.c
(the most complete revision of the source), together with theorems
checking the natural-language specification against it.

Machine words are 16-bit unsigned values; they are modelled as `Nat`
with an explicit `% 65536` wherever the C code's `uint16_t` conversions
truncate (assignment into a `uint16_t` object, a `uint16_t` parameter,
or a `uint16_t` return value).
-/

namespace LC3

/-- MAX_MEMORY from the source: 1 <<< 16 cells. -/
def MAX_MEMORY : Nat := 65536

/-- Register indices, from the source's register enum. -/
def R_R0 : Nat := 0

def R_R7 : Nat := 7

def R_PC : Nat := 8

def R_COND : Nat := 9

/-- Condition flag values, from the source's flag enum. -/
def FL_POS : Nat := 1

def FL_ZRO : Nat := 2

def FL_NEG : Nat := 4

/-- Trap vector values, from the source's trap-code enum. -/
def TRAP_GETC : Nat := 0x20

def TRAP_OUT : Nat := 0x21

def TRAP_PUTS : Nat := 0x22

def TRAP_IN : Nat := 0x23

def TRAP_PUTSP : Nat := 0x24

def TRAP_HALT : Nat := 0x25

/-- Machine state: the global `memory` and `reg` arrays, the global
`running` flag, host input and output character streams, and an
`aborted` marker modelling a call to `abort()` (which kills the
process, so an aborted machine never takes another step). -/
structure VM where
  reg : Nat → Nat
  memory : Nat → Nat
  input : List Nat
  output : List Nat
  running : Bool
  aborted : Bool

/-- Functional update of the register file; assignment into a
`uint16_t` array cell truncates the stored value to 16 bits. -/
def writeReg (r : Nat → Nat) (i v : Nat) : Nat → Nat :=
  fun j => if j = i then v % 65536 else r j

/-- Modelled from the spec: `memRead` is declared in the source but its
definition is not under src/; per spec section 3 the memory is a flat
array of 65536 16-bit cells, so reading returns the cell at the
address.  The `% 65536` on the address and on the result model the
`uint16_t` parameter and return types of the declaration. -/
def memRead (m : Nat → Nat) (addr : Nat) : Nat :=
  m (addr % 65536) % 65536

/-- Modelled from the spec: `memWrite` is declared in the source but its
definition is not under src/; per spec section 3 the memory is passive
storage mutated by stores, so writing replaces the cell at the address.
The `% 65536` model the `uint16_t` parameter types. -/
def memWrite (m : Nat → Nat) (addr v : Nat) : Nat → Nat :=
  fun a => if a = addr % 65536 then v % 65536 else m a

/-- Embeds `extendSign` from src/virtualMachine.c: if bit
`bitCount - 1` of `bits` is set, OR in `0xFFFF <<< bitCount` (the
result is truncated back to 16 bits by the `uint16_t` assignment),
else return `bits` unchanged.  The leading `% 65536` models the
`uint16_t` parameter conversion. -/
def extendSign (bits0 : Nat) (bitCount : Nat) : Nat :=
  let bits := bits0 % 65536
  if (bits >>> (bitCount - 1)) &&& 1 = 1 then
    (bits ||| (0xFFFF <<< bitCount)) % 65536
  else
    bits

/-- Embeds `updateFlags` from src/virtualMachine.c: set `reg[R_COND]`
to FL_NEG, FL_ZRO or FL_POS depending on `reg[regMarker]`. -/
def updateFlags (vm : VM) (regMarker : Nat) : VM :=
  if vm.reg regMarker >>> 15 ≠ 0 then
    { vm with reg := writeReg vm.reg R_COND FL_NEG }
  else if vm.reg regMarker = 0 then
    { vm with reg := writeReg vm.reg R_COND FL_ZRO }
  else
    { vm with reg := writeReg vm.reg R_COND FL_POS }

/-- Embeds `branch` from src/virtualMachine.c. -/
def branch (vm : VM) (instruction : Nat) : VM :=
  let conditionFlag := (instruction >>> 9) &&& 0x7
  if conditionFlag &&& vm.reg R_COND ≠ 0 then
    let pcOffset := extendSign (instruction &&& 0x1FF) 9
    { vm with reg := writeReg vm.reg R_PC (vm.reg R_PC + pcOffset) }
  else
    vm

/-- Embeds `add` from src/virtualMachine.c. -/
def add (vm : VM) (instruction : Nat) : VM :=
  let destReg := (instruction >>> 9) &&& 0x7
  let immFlag := (instruction >>> 5) &&& 0x1
  let srcReg1 := (instruction >>> 6) &&& 0x7
  let vm' :=
    if immFlag = 0 then
      let srcReg2 := instruction &&& 0x7
      { vm with reg := writeReg vm.reg destReg (vm.reg srcReg1 + vm.reg srcReg2) }
    else
      let imm5 := extendSign (instruction &&& 0x1F) 5
      { vm with reg := writeReg vm.reg destReg (vm.reg srcReg1 + imm5) }
  updateFlags vm' destReg

/-- Embeds `load` from src/virtualMachine.c. -/
def load (vm : VM) (instruction : Nat) : VM :=
  let destReg := (instruction >>> 9) &&& 0x7
  let pcOffset := extendSign (instruction &&& 0x1FF) 9
  let vm' := { vm with reg := writeReg vm.reg destReg (memRead vm.memory (vm.reg R_PC + pcOffset)) }
  updateFlags vm' destReg

/-- Embeds `store` from src/virtualMachine.c. -/
def store (vm : VM) (instruction : Nat) : VM :=
  let srcReg := (instruction >>> 9) &&& 0x7
  let pcOffset := extendSign (instruction &&& 0x1FF) 9
  { vm with memory := memWrite vm.memory (vm.reg R_PC + pcOffset) (vm.reg srcReg) }

/-- Embeds `jumpToSubroutine` from src/virtualMachine.c.  The source
reads `reg[R_PC]` into a local variable `r7` that is never used again;
in particular `reg[R_R7]` is not written. -/
def jumpToSubroutine (vm : VM) (instruction : Nat) : VM :=
  let addrFlag := (instruction >>> 11) &&& 0x1
  if addrFlag = 0 then
    let baseReg := (instruction >>> 6) &&& 0x7
    { vm with reg := writeReg vm.reg R_PC (vm.reg baseReg) }
  else
    let pcOffset := extendSign (instruction &&& 0x7FF) 11
    { vm with reg := writeReg vm.reg R_PC (vm.reg R_PC + pcOffset) }

/-- Embeds `bitwiseAnd` from src/virtualMachine.c.  The source computes
`reg[srcReg1] + reg[srcReg2]` (respectively `reg[srcReg1] + imm5`),
with `+` and not `&`, exactly as written there. -/
def bitwiseAnd (vm : VM) (instruction : Nat) : VM :=
  let destReg := (instruction >>> 9) &&& 0x7
  let srcReg1 := (instruction >>> 6) &&& 0x7
  let immFlag := (instruction >>> 5) &&& 0x1
  let vm' :=
    if immFlag = 0 then
      let srcReg2 := instruction &&& 0x7
      { vm with reg := writeReg vm.reg destReg (vm.reg srcReg1 + vm.reg srcReg2) }
    else
      let imm5 := extendSign (instruction &&& 0x1F) 5
      { vm with reg := writeReg vm.reg destReg (vm.reg srcReg1 + imm5) }
  updateFlags vm' destReg

/-- Embeds `loadBaseOffset` from src/virtualMachine.c. -/
def loadBaseOffset (vm : VM) (instruction : Nat) : VM :=
  let destReg := (instruction >>> 9) &&& 0x7
  let baseReg := (instruction >>> 6) &&& 0x7
  let offset := extendSign (instruction &&& 0x3F) 6
  let vm' := { vm with reg := writeReg vm.reg destReg (memRead vm.memory (vm.reg baseReg + offset)) }
  updateFlags vm' destReg

/-- Embeds `storeBaseOffset` from src/virtualMachine.c. -/
def storeBaseOffset (vm : VM) (instruction : Nat) : VM :=
  let srcReg := (instruction >>> 9) &&& 0x7
  let baseReg := (instruction >>> 6) &&& 0x7
  let offset := extendSign (instruction &&& 0x3F) 6
  { vm with memory := memWrite vm.memory (vm.reg baseReg + offset) (vm.reg srcReg) }

/-- Embeds `bitwiseNot` from src/virtualMachine.c; `~` on a `uint16_t`
value stored back into a `uint16_t` cell flips the low 16 bits, which
is XOR with 0xFFFF. -/
def bitwiseNot (vm : VM) (instruction : Nat) : VM :=
  let destReg := (instruction >>> 9) &&& 0x7
  let srcReg := (instruction >>> 6) &&& 0x7
  let vm' := { vm with reg := writeReg vm.reg destReg (vm.reg srcReg ^^^ 0xFFFF) }
  updateFlags vm' destReg

/-- Embeds `loadIndirect` from src/virtualMachine.c: double
indirection through memory. -/
def loadIndirect (vm : VM) (instruction : Nat) : VM :=
  let destReg := (instruction >>> 9) &&& 0x7
  let pcOffset := extendSign (instruction &&& 0x1FF) 9
  let vm' := { vm with reg := writeReg vm.reg destReg (memRead vm.memory (memRead vm.memory (vm.reg R_PC + pcOffset))) }
  updateFlags vm' destReg

/-- Embeds `storeIndirect` from src/virtualMachine.c.  The source
writes `reg[srcReg]` directly to `memory[reg[R_PC] + pcOffset]`, a
single indirection identical to `store`. -/
def storeIndirect (vm : VM) (instruction : Nat) : VM :=
  let srcReg := (instruction >>> 9) &&& 0x7
  let pcOffset := extendSign (instruction &&& 0x1FF) 9
  { vm with memory := memWrite vm.memory (vm.reg R_PC + pcOffset) (vm.reg srcReg) }

/-- Embeds `jump` from src/virtualMachine.c. -/
def jump (vm : VM) (instruction : Nat) : VM :=
  let baseReg := (instruction >>> 6) &&& 0x7
  { vm with reg := writeReg vm.reg R_PC (vm.reg baseReg) }

/-- Embeds `loadEffectiveAddr` from src/virtualMachine.c. -/
def loadEffectiveAddr (vm : VM) (instruction : Nat) : VM :=
  let destReg := (instruction >>> 9) &&& 0x7
  let pcOffset := extendSign (instruction &&& 0x1FF) 9
  let vm' := { vm with reg := writeReg vm.reg destReg (vm.reg R_PC + pcOffset) }
  updateFlags vm' destReg

/-- Embeds `trapGetc` from src/virtualMachine.c: read one character
from host input into R0 (high bits zero) and update the flags.  End of
input is modelled as `getchar` returning -1, which the `uint16_t` cast
turns into 0xFFFF. -/
def trapGetc (vm : VM) : VM :=
  match vm.input with
  | [] =>
      updateFlags { vm with reg := writeReg vm.reg R_R0 0xFFFF } R_R0
  | c :: rest =>
      updateFlags { vm with reg := writeReg vm.reg R_R0 c, input := rest } R_R0

/-- Embeds `trapOut` from src/virtualMachine.c: write the low 8 bits
of R0 to host output.  Output is modelled as an always-flushed
character list. -/
def trapOut (vm : VM) : VM :=
  { vm with output := vm.output ++ [vm.reg R_R0 % 256] }

/-- Characters emitted by `trapPuts`: successive memory cells starting
at `addr` until a zero cell, each written as its low 8 bits.  The fuel
argument bounds the walk; the source walks a raw pointer. -/
def putsChars (m : Nat → Nat) (addr : Nat) : Nat → List Nat
  | 0 => []
  | fuel + 1 =>
      if m addr % 65536 = 0 then []
      else (m addr % 65536) % 256 :: putsChars m (addr + 1) fuel

/-- Embeds `trapPuts` from src/virtualMachine.c. -/
def trapPuts (vm : VM) : VM :=
  { vm with output := vm.output ++ putsChars vm.memory (vm.reg R_R0) MAX_MEMORY }

/-- Modelled from the spec: the halt notice printed by HALT.  The spec
(section 4.5) says only that a halt notice is printed; the exact text
is not fixed, so a fixed nonempty character list stands for it. -/
def haltNotice : List Nat := [72, 65, 76, 84, 10]

/-- Modelled from the spec: `trapHalt` is declared in the source but
its definition is not under src/; per spec section 4.5, HALT prints a
halt notice, flushes, and stops the loop by clearing the `running`
flag.  Output is modelled as an always-flushed character list. -/
def trapHalt (vm : VM) : VM :=
  { vm with output := vm.output ++ haltNotice, running := false }

/-- Embeds `executeTrapCode` from src/virtualMachine.c: save PC into
R7, then dispatch on the low 8 bits of the instruction.  The IN and
PUTSP arms are unimplemented stubs in the source and do nothing; the
HALT arm is a stub there as well and its call to `trapHalt` is
modelled from the spec (sections 4.5 and 9); an unknown vector calls
`abort()`. -/
def executeTrapCode (vm : VM) (instruction : Nat) : VM :=
  let trapVect := instruction &&& 0xFF
  let vm' := { vm with reg := writeReg vm.reg R_R7 (vm.reg R_PC) }
  if trapVect = TRAP_GETC then trapGetc vm'
  else if trapVect = TRAP_OUT then trapOut vm'
  else if trapVect = TRAP_PUTS then trapPuts vm'
  else if trapVect = TRAP_IN then vm'
  else if trapVect = TRAP_PUTSP then vm'
  else if trapVect = TRAP_HALT then trapHalt vm'
  else { vm' with aborted := true }

/-- Embeds one iteration of the fetch-execute loop in `main` of
src/virtualMachine.c: fetch the instruction at PC, increment PC,
dispatch on the opcode (high 4 bits).  RTI and RES call `abort()`,
modelled by setting `aborted`.  The OP_TRAP arm is an unimplemented
stub in the source's loop; its dispatch to `executeTrapCode` is
modelled from the spec (sections 4.4 and 9, which call the missing
wiring unintentional). -/
def step (vm : VM) : VM :=
  let instruction := memRead vm.memory (vm.reg R_PC)
  let vm1 := { vm with reg := writeReg vm.reg R_PC (vm.reg R_PC + 1) }
  let opCode := instruction >>> 12
  if opCode = 0 then branch vm1 instruction
  else if opCode = 1 then add vm1 instruction
  else if opCode = 2 then load vm1 instruction
  else if opCode = 3 then store vm1 instruction
  else if opCode = 4 then jumpToSubroutine vm1 instruction
  else if opCode = 5 then bitwiseAnd vm1 instruction
  else if opCode = 6 then loadBaseOffset vm1 instruction
  else if opCode = 7 then storeBaseOffset vm1 instruction
  else if opCode = 8 then { vm1 with aborted := true }
  else if opCode = 9 then bitwiseNot vm1 instruction
  else if opCode = 10 then loadIndirect vm1 instruction
  else if opCode = 11 then storeIndirect vm1 instruction
  else if opCode = 12 then jump vm1 instruction
  else if opCode = 13 then { vm1 with aborted := true }
  else if opCode = 14 then loadEffectiveAddr vm1 instruction
  else if opCode = 15 then executeTrapCode vm1 instruction
  else vm1

/-- Embeds the fetch-execute loop of `main`, bounded by fuel: iterate
`step` while `running` is set and the process has not aborted
(`abort()` kills the process, so an aborted state never steps). -/
def run : Nat → VM → VM
  | 0, vm => vm
  | fuel + 1, vm =>
      if vm.running && !vm.aborted then run fuel (step vm) else vm

/-- Builds a machine state with the given registers and memory, empty
host streams, running and not aborted. -/
def mkVM (r : Nat → Nat) (m : Nat → Nat) : VM :=
  { reg := r, memory := m, input := [], output := [], running := true, aborted := false }

/-- Concrete state for the STI check: PC at 0x3000 where an STI
instruction 0xB004 (src = R0, pcOffset9 = 4) is stored, R0 = 0x1234,
and the cell 0x3005 holds the pointer 0x3100. -/
def vmSTI : VM := mkVM
  (fun i => if i = 8 then 0x3000 else if i = 0 then 0x1234 else 0)
  (fun a => if a = 0x3000 then 0xB004 else if a = 0x3005 then 0x3100 else 0)

/-- Concrete state for the AND check: R1 = 1 and R2 = 1. -/
def vmAND : VM := mkVM
  (fun i => if i = 1 then 1 else if i = 2 then 1 else 0) (fun _ => 0)

/-- Concrete state for the JSR check: PC = 0x3001 (the
already-incremented program counter), R7 = 0. -/
def vmJSR : VM := mkVM (fun i => if i = 8 then 0x3001 else 0) (fun _ => 0)

/-- Concrete state for the HALT check: PC at 0x3000 where a TRAP
instruction with vector 0x25 is stored, followed by more nonzero
program content. -/
def vmHALT : VM := mkVM
  (fun i => if i = 8 then 0x3000 else 0)
  (fun a => if a = 0x3000 then 0xF025 else if a = 0x3001 then 0x1042 else 0)

/-- Concrete state for the LDI checks: PC at 0x3000, cells 0x3005 =
0x3100 and 0x3100 = 0x1234 as in the spec's example, with an LDI
instruction at 0x3000 whose pcOffset9 is chosen per theorem. -/
def vmLDI (instruction : Nat) : VM := mkVM
  (fun i => if i = 8 then 0x3000 else 0)
  (fun a => if a = 0x3000 then instruction
            else if a = 0x3005 then 0x3100
            else if a = 0x3100 then 0x1234 else 0)

/-- Concrete state for the RTI check: an RTI instruction word 0x8000
at 0x3000. -/
def vmRTI : VM := mkVM
  (fun i => if i = 8 then 0x3000 else 0)
  (fun a => if a = 0x3000 then 0x8000 else 0)

/-- Concrete state for the zero-mask BR check: a BR instruction 0x0005
(condition mask 0, pcOffset9 = 5) at 0x3000, condition flags ZERO. -/
def vmBRZ : VM := mkVM
  (fun i => if i = 8 then 0x3000 else if i = 9 then 2 else 0)
  (fun a => if a = 0x3000 then 0x0005 else 0)

/-! General lemmas about the embedding, shared by the claim theorems. -/

theorem writeReg_self (r : Nat → Nat) (i v : Nat) : writeReg r i v i = v % 65536 := by
  simp [writeReg]

theorem writeReg_ne (r : Nat → Nat) (i j v : Nat) (h : j ≠ i) :
    writeReg r i v j = r j := by
  simp [writeReg, h]

theorem and7_lt (x : Nat) : x &&& 0x7 < 8 :=
  lt_of_le_of_lt Nat.and_le_right (by norm_num)

theorem and_one_eq_testBit (x k : Nat) : ((x >>> k) &&& 1 = 1) ↔ x.testBit k := by
  rw [Nat.and_one_is_mod, Nat.shiftRight_eq_div_pow, Nat.testBit_to_div_mod]
  simp

theorem shiftRight15_ne_iff (v : Nat) (h : v < 65536) :
    (v >>> 15 ≠ 0) ↔ v.testBit 15 := by
  rw [Nat.testBit_to_div_mod, Nat.shiftRight_eq_div_pow]
  have h2 : v / 2 ^ 15 < 2 := Nat.div_lt_of_lt_mul (by norm_num; omega)
  constructor
  · intro hne
    simp only [decide_eq_true_eq]
    omega
  · intro hb
    simp only [decide_eq_true_eq] at hb
    omega

theorem updateFlags_core (vm : VM) (d : Nat) (hd : d < 8) (hv : vm.reg d < 65536) :
    (updateFlags vm d).reg R_COND =
      (if (vm.reg d).testBit 15 then FL_NEG else if vm.reg d = 0 then FL_ZRO else FL_POS)
    ∧ (updateFlags vm d).reg d = vm.reg d := by
  have hne : d ≠ R_COND := by simp only [R_COND]; omega
  unfold updateFlags
  by_cases hbit : vm.reg d >>> 15 ≠ 0
  · rw [if_pos hbit]
    rw [((shiftRight15_ne_iff _ hv).mp hbit : (vm.reg d).testBit 15 = true)]
    simp [writeReg_self, writeReg_ne _ _ _ _ hne, FL_NEG]
  · rw [if_neg hbit]
    have hb15 : (vm.reg d).testBit 15 = false := by
      rw [← Bool.not_eq_true, ← shiftRight15_ne_iff _ hv]
      simpa using hbit
    by_cases hz : vm.reg d = 0
    · simp [hz, hb15, writeReg_self, writeReg_ne _ _ _ _ hne, FL_ZRO]
    · simp [hz, hb15, writeReg_self, writeReg_ne _ _ _ _ hne, FL_POS]

theorem updateFlags_after_write (vm : VM) (d v : Nat) (hd : d < 8) :
    (updateFlags { vm with reg := writeReg vm.reg d v } d).reg R_COND =
      (if ((updateFlags { vm with reg := writeReg vm.reg d v } d).reg d).testBit 15 then FL_NEG
       else if (updateFlags { vm with reg := writeReg vm.reg d v } d).reg d = 0 then FL_ZRO
       else FL_POS) := by
  have hv : ({ vm with reg := writeReg vm.reg d v } : VM).reg d < 65536 := by
    show writeReg vm.reg d v d < 65536
    rw [writeReg_self]
    exact Nat.mod_lt _ (by norm_num)
  have h := updateFlags_core { vm with reg := writeReg vm.reg d v } d hd hv
  rw [h.1, h.2]

theorem run_stop_of_not_running (s : VM) (h : s.running = false) (fuel : Nat) :
    run fuel s = s := by
  cases fuel with
  | zero => rfl
  | succ n => simp [run, h]

theorem run_stop_of_aborted (s : VM) (h : s.aborted = true) (fuel : Nat) :
    run fuel s = s := by
  cases fuel with
  | zero => rfl
  | succ n => simp [run, h]

theorem cond_ne_pc : R_COND ≠ R_PC := by simp [R_COND, R_PC]

theorem lor_shiftLeft_mod (m k n : Nat) : (m ||| (k <<< n)) % 2 ^ n = m % 2 ^ n := by
  apply Nat.eq_of_testBit_eq
  intro i
  simp only [Nat.testBit_mod_two_pow, Nat.testBit_lor, Nat.testBit_shiftLeft]
  by_cases h : i < n
  · simp [h, Nat.not_le.mpr h]
  · simp [h]

/-! Claim theorems. -/

/-- C1: the claim says STI stores the source register through double
indirection, Memory[Memory[PC + offset]] = reg[src], leaving other
addresses unchanged.  Evaluating the code at the failing input: with
PC = 0x3000, STI 0xB004 fetched there (src = R0 = 0x1234, pcOffset9 =
4, so PC + offset = 0x3005 after the increment) and Memory[0x3005] =
0x3100, the pointed-to cell 0x3100 stays 0 while the pointer cell
0x3005 itself is overwritten with 0x1234: the source performs a single
indirection, identical to ST. -/
theorem c1_sti_evaluation :
    vmSTI.memory 0x3005 = 0x3100
    ∧ vmSTI.reg 0 = 0x1234
    ∧ (step vmSTI).memory 0x3100 = 0
    ∧ (step vmSTI).memory 0x3005 = 0x1234 := by decide

/-- C2: the claim says AND computes the bitwise AND of its operands.
Evaluating the code at the failing input: with R1 = 1, R2 = 1 and the
AND instruction 0x5042 (dst = R0, src1 = R1, immFlag = 0, src2 = R2),
the destination receives 2 = 1 + 1, not 1 &&& 1 = 1: the source adds
the operands instead of AND-ing them. -/
theorem c2_and_evaluation :
    vmAND.reg 1 = 1
    ∧ vmAND.reg 2 = 1
    ∧ (bitwiseAnd vmAND 0x5042).reg 0 = 2
    ∧ (bitwiseAnd vmAND 0x5042).reg 0 ≠ vmAND.reg 1 &&& vmAND.reg 2 := by decide

/-- C3: the claim says JSR writes the already-incremented PC into R7
before jumping.  Evaluating the code at the failing input: with PC =
0x3001 and R7 = 0, executing JSR 0x4802 (addrFlag = 1, pcOffset11 = 2)
leaves R7 = 0 rather than 0x3001, while PC does become PC + offset:
the source reads PC into a dead local variable and never writes
reg[R7]. -/
theorem c3_jsr_evaluation :
    vmJSR.reg R_PC = 0x3001
    ∧ vmJSR.reg R_R7 = 0
    ∧ (jumpToSubroutine vmJSR 0x4802).reg R_R7 = 0
    ∧ (jumpToSubroutine vmJSR 0x4802).reg R_R7 ≠ vmJSR.reg R_PC
    ∧ (jumpToSubroutine vmJSR 0x4802).reg R_PC = 0x3003 := by decide

/-- C4: executing TRAP with vector 0x25 (HALT) prints a halt notice,
flushes host output (output is modelled as an always-flushed character
list), and stops the fetch-execute loop: the resulting state is no
longer running and any further run of the loop, with any fuel and any
remaining program content, fetches nothing more. -/
theorem c4_trap_halt (vm : VM)
    (hr : vm.running = true) (ha : vm.aborted = false)
    (hop : memRead vm.memory (vm.reg R_PC) >>> 12 = 15)
    (hv : memRead vm.memory (vm.reg R_PC) &&& 0xFF = 0x25) :
    (step vm).running = false
    ∧ (step vm).output = vm.output ++ haltNotice
    ∧ ∀ fuel, run fuel (step vm) = step vm := by
  have h1 : (step vm).running = false := by
    simp [step, hop, executeTrapCode, hv, TRAP_GETC, TRAP_OUT, TRAP_PUTS,
      TRAP_IN, TRAP_PUTSP, TRAP_HALT, trapHalt]
  refine ⟨h1, ?_, fun fuel => run_stop_of_not_running _ h1 fuel⟩
  simp [step, hop, executeTrapCode, hv, TRAP_GETC, TRAP_OUT, TRAP_PUTS,
    TRAP_IN, TRAP_PUTSP, TRAP_HALT, trapHalt]

/-- Witness for C4 at a concrete input: TRAP 0xF025 stored at 0x3000
with further nonzero program content after it. -/
theorem c4_trap_halt_witness :
    (step vmHALT).running = false ∧ run 5 (step vmHALT) = step vmHALT := by
  have h := c4_trap_halt vmHALT rfl rfl (by decide) (by decide)
  exact ⟨h.1, h.2.2 5⟩

/-- C5: extendSign(bits, bitCount) ORs in 0xFFFF <<< bitCount (as a
16-bit result) exactly when bit bitCount - 1 of bits is set and
returns bits unchanged otherwise; and for every value v and every
bit count n in [1,16], sign-extending the low n bits of v and masking
back to n bits recovers the original low n bits of v. -/
theorem c5_extendSign_roundTrip (v n : Nat) (h1 : 1 ≤ n) (h2 : n ≤ 16) :
    (∀ bits, bits < 65536 →
      extendSign bits n =
        (if bits.testBit (n - 1) then (bits ||| (0xFFFF <<< n)) % 65536 else bits))
    ∧ extendSign (v &&& ((1 <<< n) - 1)) n &&& ((1 <<< n) - 1)
        = v &&& ((1 <<< n) - 1) := by
  constructor
  · intro bits hb
    unfold extendSign
    simp only [Nat.mod_eq_of_lt hb]
    by_cases hbit : bits.testBit (n - 1)
    · rw [if_pos ((and_one_eq_testBit bits (n - 1)).mpr hbit), if_pos hbit]
    · rw [if_neg (fun hc => hbit ((and_one_eq_testBit bits (n - 1)).mp hc)), if_neg hbit]
  · have hshift : (1 <<< n) = 2 ^ n := by simp [Nat.shiftLeft_eq]
    rw [hshift]
    simp only [Nat.and_pow_two_sub_one_eq_mod]
    set m := v % 2 ^ n with hm
    have hmlt : m < 2 ^ n := Nat.mod_lt _ (Nat.pos_pow_of_pos n (by norm_num))
    have hpow : 2 ^ n ≤ 65536 := by
      calc 2 ^ n ≤ 2 ^ 16 := Nat.pow_le_pow_right (by norm_num) h2
        _ = 65536 := by norm_num
    have hmlt16 : m < 65536 := lt_of_lt_of_le hmlt hpow
    have hdvd : 2 ^ n ∣ 65536 := by
      have h16 : (65536 : Nat) = 2 ^ 16 := by norm_num
      rw [h16]
      exact Nat.pow_dvd_pow 2 h2
    unfold extendSign
    simp only [Nat.mod_eq_of_lt hmlt16]
    by_cases hbit : (m >>> (n - 1)) &&& 1 = 1
    · simp only [hbit, if_true]
      rw [Nat.mod_mod_of_dvd _ hdvd, lor_shiftLeft_mod, Nat.mod_eq_of_lt hmlt]
    · simp only [hbit, if_false]
      exact Nat.mod_eq_of_lt hmlt

/-- Witness for C5 at a concrete input: v = 43981, n = 9. -/
theorem c5_extendSign_roundTrip_witness :
    1 ≤ 9 ∧ 9 ≤ 16
    ∧ extendSign (43981 &&& ((1 <<< 9) - 1)) 9 &&& ((1 <<< 9) - 1)
        = 43981 &&& ((1 <<< 9) - 1) :=
  ⟨by decide, by decide, (c5_extendSign_roundTrip 43981 9 (by decide) (by decide)).2⟩

/-- C6: after each register-defining instruction (ADD, AND, NOT, LD,
LDI, LDR, LEA), the condition-flag register holds exactly the flag
determined by the defined register (bits 11:9 of the instruction):
FL_NEG when its bit 15 is set, FL_ZRO when it is zero, FL_POS
otherwise, overwriting whatever flag value was there before. -/
theorem c6_condition_flags (vm : VM) (instruction : Nat) :
    ((add vm instruction).reg R_COND =
      (if ((add vm instruction).reg ((instruction >>> 9) &&& 0x7)).testBit 15 then FL_NEG
       else if (add vm instruction).reg ((instruction >>> 9) &&& 0x7) = 0 then FL_ZRO
       else FL_POS))
    ∧ ((bitwiseAnd vm instruction).reg R_COND =
      (if ((bitwiseAnd vm instruction).reg ((instruction >>> 9) &&& 0x7)).testBit 15 then FL_NEG
       else if (bitwiseAnd vm instruction).reg ((instruction >>> 9) &&& 0x7) = 0 then FL_ZRO
       else FL_POS))
    ∧ ((bitwiseNot vm instruction).reg R_COND =
      (if ((bitwiseNot vm instruction).reg ((instruction >>> 9) &&& 0x7)).testBit 15 then FL_NEG
       else if (bitwiseNot vm instruction).reg ((instruction >>> 9) &&& 0x7) = 0 then FL_ZRO
       else FL_POS))
    ∧ ((load vm instruction).reg R_COND =
      (if ((load vm instruction).reg ((instruction >>> 9) &&& 0x7)).testBit 15 then FL_NEG
       else if (load vm instruction).reg ((instruction >>> 9) &&& 0x7) = 0 then FL_ZRO
       else FL_POS))
    ∧ ((loadIndirect vm instruction).reg R_COND =
      (if ((loadIndirect vm instruction).reg ((instruction >>> 9) &&& 0x7)).testBit 15 then FL_NEG
       else if (loadIndirect vm instruction).reg ((instruction >>> 9) &&& 0x7) = 0 then FL_ZRO
       else FL_POS))
    ∧ ((loadBaseOffset vm instruction).reg R_COND =
      (if ((loadBaseOffset vm instruction).reg ((instruction >>> 9) &&& 0x7)).testBit 15 then FL_NEG
       else if (loadBaseOffset vm instruction).reg ((instruction >>> 9) &&& 0x7) = 0 then FL_ZRO
       else FL_POS))
    ∧ ((loadEffectiveAddr vm instruction).reg R_COND =
      (if ((loadEffectiveAddr vm instruction).reg ((instruction >>> 9) &&& 0x7)).testBit 15 then FL_NEG
       else if (loadEffectiveAddr vm instruction).reg ((instruction >>> 9) &&& 0x7) = 0 then FL_ZRO
       else FL_POS)) := by
  refine ⟨?_, ?_, ?_, ?_, ?_, ?_, ?_⟩
  · simp only [add]
    split
    · exact updateFlags_after_write vm ((instruction >>> 9) &&& 0x7) _ (and7_lt _)
    · exact updateFlags_after_write vm ((instruction >>> 9) &&& 0x7) _ (and7_lt _)
  · simp only [bitwiseAnd]
    split
    · exact updateFlags_after_write vm ((instruction >>> 9) &&& 0x7) _ (and7_lt _)
    · exact updateFlags_after_write vm ((instruction >>> 9) &&& 0x7) _ (and7_lt _)
  · simp only [bitwiseNot]
    exact updateFlags_after_write vm ((instruction >>> 9) &&& 0x7) _ (and7_lt _)
  · simp only [load]
    exact updateFlags_after_write vm ((instruction >>> 9) &&& 0x7) _ (and7_lt _)
  · simp only [loadIndirect]
    exact updateFlags_after_write vm ((instruction >>> 9) &&& 0x7) _ (and7_lt _)
  · simp only [loadBaseOffset]
    exact updateFlags_after_write vm ((instruction >>> 9) &&& 0x7) _ (and7_lt _)
  · simp only [loadEffectiveAddr]
    exact updateFlags_after_write vm ((instruction >>> 9) &&& 0x7) _ (and7_lt _)

/-- C8: every store instruction handler (ST, STR, STI) and every pure
control-flow handler (BR, JMP, JSR) leaves the condition-flag register
unchanged, for every machine state and every instruction word. -/
theorem c8_flags_untouched (vm : VM) (instruction : Nat) :
    (store vm instruction).reg R_COND = vm.reg R_COND
    ∧ (storeBaseOffset vm instruction).reg R_COND = vm.reg R_COND
    ∧ (storeIndirect vm instruction).reg R_COND = vm.reg R_COND
    ∧ (branch vm instruction).reg R_COND = vm.reg R_COND
    ∧ (jump vm instruction).reg R_COND = vm.reg R_COND
    ∧ (jumpToSubroutine vm instruction).reg R_COND = vm.reg R_COND := by
  refine ⟨rfl, rfl, rfl, ?_, ?_, ?_⟩
  · simp only [branch]
    split
    · simp [writeReg, R_COND, R_PC]
    · rfl
  · simp only [jump]
    simp [writeReg, R_COND, R_PC]
  · simp only [jumpToSubroutine]
    split
    · simp [writeReg, R_COND, R_PC]
    · simp [writeReg, R_COND, R_PC]

/-- C9: fetching an instruction whose opcode is RTI (0x8) or RES (0xD)
aborts the machine: the only state change is the fetch's PC increment,
and no further instruction is ever fetched or executed, with any fuel. -/
theorem c9_rti_res_abort (vm : VM)
    (hop : memRead vm.memory (vm.reg R_PC) >>> 12 = 8
      ∨ memRead vm.memory (vm.reg R_PC) >>> 12 = 13) :
    (step vm).aborted = true
    ∧ (step vm).reg R_PC = (vm.reg R_PC + 1) % 65536
    ∧ (∀ j, j ≠ R_PC → (step vm).reg j = vm.reg j)
    ∧ (step vm).memory = vm.memory
    ∧ (step vm).output = vm.output
    ∧ (step vm).running = vm.running
    ∧ ∀ fuel, run fuel (step vm) = step vm := by
  have hstep : step vm =
      { vm with reg := writeReg vm.reg R_PC (vm.reg R_PC + 1), aborted := true } := by
    rcases hop with h | h <;> simp [step, h]
  refine ⟨by rw [hstep], ?_, ?_, by rw [hstep], by rw [hstep], by rw [hstep], ?_⟩
  · rw [hstep]
    show writeReg vm.reg R_PC (vm.reg R_PC + 1) R_PC = (vm.reg R_PC + 1) % 65536
    exact writeReg_self _ _ _
  · intro j hj
    rw [hstep]
    show writeReg vm.reg R_PC (vm.reg R_PC + 1) j = vm.reg j
    exact writeReg_ne _ _ _ _ hj
  · intro fuel
    exact run_stop_of_aborted _ (by rw [hstep]) fuel

/-- Witness for C9 at a concrete input: RTI word 0x8000 stored at
0x3000. -/
theorem c9_rti_res_abort_witness :
    (step vmRTI).aborted = true ∧ run 5 (step vmRTI) = step vmRTI := by
  have h := c9_rti_res_abort vmRTI (Or.inl (by decide))
  exact ⟨h.1, h.2.2.2.2.2.2 5⟩

/-- C10: a BR instruction whose condition mask (bits 11:9) is all
zeros is a no-op for every condition-flag state: beyond the fetch's
PC increment, no register, memory cell, host stream or status bit
changes. -/
theorem c10_branch_zero_mask (vm : VM)
    (hop : memRead vm.memory (vm.reg R_PC) >>> 12 = 0)
    (hmask : (memRead vm.memory (vm.reg R_PC) >>> 9) &&& 0x7 = 0) :
    (step vm).reg R_PC = (vm.reg R_PC + 1) % 65536
    ∧ (∀ j, j ≠ R_PC → (step vm).reg j = vm.reg j)
    ∧ (step vm).memory = vm.memory
    ∧ (step vm).output = vm.output
    ∧ (step vm).running = vm.running
    ∧ (step vm).aborted = vm.aborted := by
  have hstep : step vm =
      { vm with reg := writeReg vm.reg R_PC (vm.reg R_PC + 1) } := by
    simp [step, hop, branch, hmask]
  refine ⟨?_, ?_, by rw [hstep], by rw [hstep], by rw [hstep], by rw [hstep]⟩
  · rw [hstep]
    show writeReg vm.reg R_PC (vm.reg R_PC + 1) R_PC = (vm.reg R_PC + 1) % 65536
    exact writeReg_self _ _ _
  · intro j hj
    rw [hstep]
    show writeReg vm.reg R_PC (vm.reg R_PC + 1) j = vm.reg j
    exact writeReg_ne _ _ _ _ hj

/-- Witness for C10 at a concrete input: BR word 0x0005 (mask 0,
pcOffset9 = 5) stored at 0x3000, flags ZERO. -/
theorem c10_branch_zero_mask_witness :
    (step vmBRZ).reg R_PC = (vmBRZ.reg R_PC + 1) % 65536
    ∧ (step vmBRZ).memory = vmBRZ.memory := by
  have h := c10_branch_zero_mask vmBRZ (by decide) (by decide)
  exact ⟨h.1, h.2.2.1⟩

/-- Helper for the LDI theorem: the result of a double indirect load
followed by a flag update, for 16-bit-valued memory. -/
theorem ldi_core (vm : VM) (d x : Nat) (hd : d < 8) (hm : ∀ a, vm.memory a < 65536) :
    (updateFlags { vm with reg := writeReg vm.reg d (memRead vm.memory (memRead vm.memory x)) } d).reg d
      = vm.memory (vm.memory (x % 65536))
    ∧ (updateFlags { vm with reg := writeReg vm.reg d (memRead vm.memory (memRead vm.memory x)) } d).reg R_COND
      = (if (vm.memory (vm.memory (x % 65536))).testBit 15 then FL_NEG
         else if vm.memory (vm.memory (x % 65536)) = 0 then FL_ZRO
         else FL_POS) := by
  have e1 : memRead vm.memory x = vm.memory (x % 65536) := by
    unfold memRead
    exact Nat.mod_eq_of_lt (hm _)
  have hv1 : vm.memory (x % 65536) < 65536 := hm _
  have e2 : memRead vm.memory (vm.memory (x % 65536)) = vm.memory (vm.memory (x % 65536)) := by
    unfold memRead
    rw [Nat.mod_eq_of_lt hv1]
    exact Nat.mod_eq_of_lt (hm _)
  rw [e1, e2]
  have hv2 : vm.memory (vm.memory (x % 65536)) < 65536 := hm _
  have hw : ({ vm with reg := writeReg vm.reg d (vm.memory (vm.memory (x % 65536))) } : VM).reg d
      = vm.memory (vm.memory (x % 65536)) := by
    show writeReg vm.reg d _ d = _
    rw [writeReg_self]
    exact Nat.mod_eq_of_lt hv2
  have hcore := updateFlags_core
    { vm with reg := writeReg vm.reg d (vm.memory (vm.memory (x % 65536))) } d hd
    (by rw [hw]; exact hv2)
  exact ⟨by rw [hcore.2, hw], by rw [hcore.1, hw]⟩

/-- C7 counterexample: the claim as stated fails on the code.  With PC
= 0x3001 after fetching the LDI word 0xA005 (pcOffset9 = 5) from
0x3000, and memory satisfying the claimed constraints Memory[0x3005] =
0x3100 and Memory[0x3100] = 0x1234 (all other cells 0), the
destination register receives Memory[Memory[0x3006]] = 0, not 0x1234:
the effective address 0x3001 + 5 = 0x3006 misses the pointer cell the
claim names. -/
theorem c7_ldi_counterexample :
    (vmLDI 0xA005).memory 0x3005 = 0x3100
    ∧ (vmLDI 0xA005).memory 0x3100 = 0x1234
    ∧ (step (vmLDI 0xA005)).reg R_PC = 0x3001
    ∧ (step (vmLDI 0xA005)).reg 0 ≠ 0x1234 := by decide

/-- C7 (amended): every LDI loads
Memory[Memory[PC + sign-extend(pcOffset9,9)]] (double indirection, PC
already incremented, address arithmetic mod 65536) into the
destination register and updates the flags from the loaded value; in
particular, with PC = 0x3001 after fetching from 0x3000,
Memory[0x3005] = 0x3100, Memory[0x3100] = 0x1234 and pcOffset9 = 4,
the destination register becomes 0x1234. -/
theorem c7_ldi_double_indirection (vm : VM) (instruction : Nat)
    (hm : ∀ a, vm.memory a < 65536) :
    ((loadIndirect vm instruction).reg ((instruction >>> 9) &&& 0x7)
        = vm.memory (vm.memory ((vm.reg R_PC + extendSign (instruction &&& 0x1FF) 9) % 65536))
      ∧ (loadIndirect vm instruction).reg R_COND
          = (if (vm.memory (vm.memory ((vm.reg R_PC + extendSign (instruction &&& 0x1FF) 9) % 65536))).testBit 15
             then FL_NEG
             else if vm.memory (vm.memory ((vm.reg R_PC + extendSign (instruction &&& 0x1FF) 9) % 65536)) = 0
             then FL_ZRO
             else FL_POS))
    ∧ (step (vmLDI 0xA004)).reg 0 = 0x1234
    ∧ (step (vmLDI 0xA004)).reg R_COND = FL_POS := by
  refine ⟨?_, by decide, by decide⟩
  simp only [loadIndirect]
  exact ldi_core vm ((instruction >>> 9) &&& 0x7)
    (vm.reg R_PC + extendSign (instruction &&& 0x1FF) 9) (and7_lt _) hm

/-- Witness for C7 at a concrete input: the amended spec example. -/
theorem c7_ldi_double_indirection_witness :
    (loadIndirect (vmLDI 0xA004) 0xA004).reg ((0xA004 >>> 9) &&& 0x7)
      = (vmLDI 0xA004).memory ((vmLDI 0xA004).memory
          (((vmLDI 0xA004).reg R_PC + extendSign (0xA004 &&& 0x1FF) 9) % 65536)) := by
  have hm : ∀ a, (vmLDI 0xA004).memory a < 65536 := by
    intro a
    simp only [vmLDI, mkVM]
    repeat' split
    all_goals norm_num
  exact ((c7_ldi_double_indirection (vmLDI 0xA004) 0xA004 hm).1).1

end LC3
